import Mathlib

/-
Verification of the node_crunch coordinator (src/nc_server.rs) against its
natural-language specification.

The coordinator code under verification is `start_server` and `handle_node`
in src/nc_server.rs.  The shallow embedding below has two layers:

* a functional embedding `handle_node` of the per-connection handler body,
  used for the purely functional claims about a single connection;
* a labelled small-step machine (`SysState`, `Step`) modelling the accept
  loop of `start_server` interleaved with any number of spawned handler
  tasks, with the std::sync::Mutex around the shared server state made
  explicit, used for the concurrency and temporal claims.

Byte vectors (Vec<u8>) are modelled as List Nat, node ids (u128) as Nat.
-/

namespace NodeCrunch

/-- NC_ServerMessage from src/nc_server.rs: messages sent coordinator to
worker.  `ServerHasData` carries a work payload, `ServerFinished` tells the
worker the job is done. -/
inductive NC_ServerMessage
  | ServerHasData (data : List Nat)
  | ServerFinished
deriving DecidableEq, Repr

/-- Modelled from the spec: nc_node.rs is not under src/, but the shape of
`NC_NodeMessage` is fixed by the match arms of handle_node in
src/nc_server.rs (`NodeNeedsData(node_id)` and
`NodeHasData((node_id, new_data))`) and by the spec (WorkerMessage:
RequestWork(workerId), SubmitResult(workerId, payload)). -/
inductive NC_NodeMessage
  | NodeNeedsData (node_id : Nat)
  | NodeHasData (node_id : Nat) (data : List Nat)
deriving DecidableEq, Repr

/-- Modelled from the spec: the NC_Error enum used by src/nc_server.rs is
not under src/ (the nc_error.rs in the snapshot is a different revision
defining NCError).  The variants below are exactly those constructed in
src/nc_server.rs (TcpBind, SocketAccept, QuitLock, ServerLock,
ServerPrepare, ServerProcess) plus the receive/decode/send failure kinds
named by spec section 7 (IOError, Deserialize).  `E` is the opaque
application error type (Box dyn Error in the source). -/
inductive NC_Error (E : Type)
  | TcpBind
  | SocketAccept
  | QuitLock
  | ServerLock
  | ServerPrepare (e : E)
  | ServerProcess (e : E)
  | IOError
  | Deserialize
deriving DecidableEq

/-- The NC_Server trait from src/nc_server.rs.  Both methods take
`&mut self`; this is modelled by threading the state `S` through every
call, also on the error path. -/
structure NC_Server (S E : Type) where
  prepare_data_for_node : S → Nat → Except E (List Nat) × S
  process_data_from_node : S → Nat → List Nat → Except E Bool × S

/-- Instrumentation: which capability-contract calls a handler run made,
in order, with their arguments. -/
inductive ServerCall
  | prepare (node_id : Nat)
  | process (node_id : Nat) (data : List Nat)
deriving DecidableEq, Repr

/-- Observable outcome of one run of handle_node: the Result value the
function returns, the server state and quit flag afterwards, the wire
replies successfully written, and the capability calls made. -/
structure HandleResult (S E : Type) where
  result : Except (NC_Error E) Unit
  server : S
  quit : Bool
  sent : List NC_ServerMessage
  calls : List ServerCall

/-- Functional embedding of handle_node from src/nc_server.rs, run in
isolation (the interleaved version is the `Step` machine below).
`incoming` is the combined outcome of nc_receive_message plus
nc_decode_data (nc_util.rs is not under src/; a failure of either ends the
handler with that error, as the two `?` in the source do).  `sendOk` says
whether the single nc_encode_data/nc_send_message sequence on the taken
path succeeds; on failure the handler returns an IOError and nothing is
written.  `q` is the value of the shared quit flag, `st` the shared server
state. -/
def handle_node (srv : NC_Server S E) (incoming : Except (NC_Error E) NC_NodeMessage)
    (sendOk : Bool) (q : Bool) (st : S) : HandleResult S E :=
  match incoming with
  | .error e => ⟨.error e, st, q, [], []⟩
  | .ok (.NodeNeedsData node_id) =>
    if q then
      if sendOk then ⟨.ok (), st, q, [.ServerFinished], []⟩
      else ⟨.error .IOError, st, q, [], []⟩
    else
      match srv.prepare_data_for_node st node_id with
      | (.ok new_data, st2) =>
        if sendOk then ⟨.ok (), st2, q, [.ServerHasData new_data], [.prepare node_id]⟩
        else ⟨.error .IOError, st2, q, [], [.prepare node_id]⟩
      | (.error e, st2) => ⟨.error (.ServerPrepare e), st2, q, [], [.prepare node_id]⟩
  | .ok (.NodeHasData node_id new_data) =>
    match srv.process_data_from_node st node_id new_data with
    | (.ok finished, st2) =>
      if finished then
        if sendOk then ⟨.ok (), st2, true, [.ServerFinished], [.process node_id new_data]⟩
        else ⟨.error .IOError, st2, true, [], [.process node_id new_data]⟩
      else ⟨.ok (), st2, q, [], [.process node_id new_data]⟩
    | (.error e, st2) => ⟨.error (.ServerProcess e), st2, q, [], [.process node_id new_data]⟩

/-- Modelled from the spec: nc_config.rs is not under src/.  The
configuration value object of spec section 6 with the two fields
start_server reads or could read; only `port` is consumed by
src/nc_server.rs. -/
structure NC_Configuration where
  address : String
  port : Nat
deriving DecidableEq

/-- The socket address start_server binds, from src/nc_server.rs line 31:
SocketAddr::new("0.0.0.0".parse().unwrap(), config.port). -/
def start_server_bind_addr (config : NC_Configuration) : String × Nat :=
  ("0.0.0.0", config.port)

/-- Control point of one spawned handler task inside handle_node.  A task
at `prepCall` or `procCall` holds the nc_server mutex and is executing the
corresponding capability-contract call. -/
inductive TaskState (E : Type)
  | reading (incoming : Except (NC_Error E) NC_NodeMessage)
  | quitCheck (node_id : Nat)
  | prepLock (node_id : Nat)
  | prepCall (node_id : Nat)
  | sendData (data : List Nat)
  | sendFinishedFlag
  | procLock (node_id : Nat) (data : List Nat)
  | procCall (node_id : Nat) (data : List Nat)
  | setQuitFlag
  | sendFinishedJob
  | done (r : Except (NC_Error E) Unit)

/-- Control point of the accept loop of start_server.  `returnedOk` means
start_server returned Ok(()), `returnedErr` means it returned the
SocketAccept error propagated by the `?` on socket.accept(). -/
inductive AcceptPhase
  | checkQuit
  | accepting
  | returnedOk
  | returnedErr
deriving DecidableEq, Repr

/-- Global state of the coordinator: the two shared mutex-protected values
(quit flag and server state), the holder of the nc_server mutex, the
accept-loop control point, the spawned handler tasks (task ids below
`nextId`), and the ordered log of replies successfully written to the
network, tagged with the writing task. -/
structure SysState (S E : Type) where
  quit : Bool
  server : S
  serverLock : Option Nat
  acceptPhase : AcceptPhase
  tasks : Nat → Option (TaskState E)
  nextId : Nat
  sent : List (Nat × NC_ServerMessage)

/-- Update one task's control point. -/
def upd (tasks : Nat → Option (TaskState E)) (t : Nat) (st : TaskState E) :
    Nat → Option (TaskState E) :=
  fun i => if i = t then some st else tasks i

/-- State of the coordinator right after start_server bound the socket and
created the two Arc Mutex values: quit false, no tasks, loop at the while
condition. -/
def initState (s0 : S) : SysState S E :=
  { quit := false, server := s0, serverLock := none, acceptPhase := .checkQuit,
    tasks := fun _ => none, nextId := 0, sent := [] }

/-- A step is taken either by the accept loop of start_server or by one
spawned handler task. -/
inductive StepLabel
  | acceptLoop
  | task (t : Nat)
deriving DecidableEq

/-- Interleaving small-step semantics of start_server plus its spawned
handle_node tasks (src/nc_server.rs).  Accept-loop steps: the while
condition reads the quit flag under its mutex; accept either yields a
connection (spawning a handler whose receive+decode outcome is the
nondeterministic `incoming`) or fails, in which case the `?` on accept
makes start_server return the SocketAccept error.  Task steps walk
handle_node: read+decode, then for NodeNeedsData the quit check followed
by prepare_data_for_node under the nc_server mutex and the ServerHasData
(or ServerFinished) reply; for NodeHasData process_data_from_node under
the mutex, then on true set the quit flag and reply ServerFinished.  The
mutex acquisitions require `serverLock = none` and the lock is released in
the same step as the capability call returns, before any send, exactly as
the scoped blocks in the source drop the MutexGuard.  Send steps may fail
(nc_send_message / nc_encode_data, nc_util.rs not under src/); a failed
send completes the task with an IOError and writes nothing. -/
inductive Step (srv : NC_Server S E) : StepLabel → SysState S E → SysState S E → Prop
  | loopCheckTrue (s : SysState S E) (h : s.acceptPhase = .checkQuit) (hq : s.quit = true) :
      Step srv .acceptLoop s { s with acceptPhase := .returnedOk }
  | loopCheckFalse (s : SysState S E) (h : s.acceptPhase = .checkQuit) (hq : s.quit = false) :
      Step srv .acceptLoop s { s with acceptPhase := .accepting }
  | acceptOk (s : SysState S E) (incoming : Except (NC_Error E) NC_NodeMessage)
      (h : s.acceptPhase = .accepting) :
      Step srv .acceptLoop s { s with
        acceptPhase := .checkQuit
        tasks := upd s.tasks s.nextId (.reading incoming)
        nextId := s.nextId + 1 }
  | acceptErr (s : SysState S E) (h : s.acceptPhase = .accepting) :
      Step srv .acceptLoop s { s with acceptPhase := .returnedErr }
  | readErr (s : SysState S E) (t : Nat) (e : NC_Error E)
      (h : s.tasks t = some (.reading (.error e))) :
      Step srv (.task t) s { s with tasks := upd s.tasks t (.done (.error e)) }
  | dispatchNeeds (s : SysState S E) (t node_id : Nat)
      (h : s.tasks t = some (.reading (.ok (.NodeNeedsData node_id)))) :
      Step srv (.task t) s { s with tasks := upd s.tasks t (.quitCheck node_id) }
  | dispatchHas (s : SysState S E) (t node_id : Nat) (data : List Nat)
      (h : s.tasks t = some (.reading (.ok (.NodeHasData node_id data)))) :
      Step srv (.task t) s { s with tasks := upd s.tasks t (.procLock node_id data) }
  | quitCheckTrue (s : SysState S E) (t node_id : Nat)
      (h : s.tasks t = some (.quitCheck node_id)) (hq : s.quit = true) :
      Step srv (.task t) s { s with tasks := upd s.tasks t .sendFinishedFlag }
  | quitCheckFalse (s : SysState S E) (t node_id : Nat)
      (h : s.tasks t = some (.quitCheck node_id)) (hq : s.quit = false) :
      Step srv (.task t) s { s with tasks := upd s.tasks t (.prepLock node_id) }
  | prepAcquire (s : SysState S E) (t node_id : Nat)
      (h : s.tasks t = some (.prepLock node_id)) (hfree : s.serverLock = none) :
      Step srv (.task t) s { s with
        tasks := upd s.tasks t (.prepCall node_id)
        serverLock := some t }
  | prepOk (s : SysState S E) (t node_id : Nat) (data : List Nat) (st2 : S)
      (h : s.tasks t = some (.prepCall node_id))
      (hc : srv.prepare_data_for_node s.server node_id = (.ok data, st2)) :
      Step srv (.task t) s { s with
        tasks := upd s.tasks t (.sendData data)
        server := st2
        serverLock := none }
  | prepErr (s : SysState S E) (t node_id : Nat) (e : E) (st2 : S)
      (h : s.tasks t = some (.prepCall node_id))
      (hc : srv.prepare_data_for_node s.server node_id = (.error e, st2)) :
      Step srv (.task t) s { s with
        tasks := upd s.tasks t (.done (.error (.ServerPrepare e)))
        server := st2
        serverLock := none }
  | sendDataOk (s : SysState S E) (t : Nat) (data : List Nat)
      (h : s.tasks t = some (.sendData data)) :
      Step srv (.task t) s { s with
        tasks := upd s.tasks t (.done (.ok ()))
        sent := s.sent ++ [(t, .ServerHasData data)] }
  | sendDataErr (s : SysState S E) (t : Nat) (data : List Nat)
      (h : s.tasks t = some (.sendData data)) :
      Step srv (.task t) s { s with tasks := upd s.tasks t (.done (.error .IOError)) }
  | sendFlagOk (s : SysState S E) (t : Nat) (h : s.tasks t = some .sendFinishedFlag) :
      Step srv (.task t) s { s with
        tasks := upd s.tasks t (.done (.ok ()))
        sent := s.sent ++ [(t, .ServerFinished)] }
  | sendFlagErr (s : SysState S E) (t : Nat) (h : s.tasks t = some .sendFinishedFlag) :
      Step srv (.task t) s { s with tasks := upd s.tasks t (.done (.error .IOError)) }
  | procAcquire (s : SysState S E) (t node_id : Nat) (data : List Nat)
      (h : s.tasks t = some (.procLock node_id data)) (hfree : s.serverLock = none) :
      Step srv (.task t) s { s with
        tasks := upd s.tasks t (.procCall node_id data)
        serverLock := some t }
  | procTrue (s : SysState S E) (t node_id : Nat) (data : List Nat) (st2 : S)
      (h : s.tasks t = some (.procCall node_id data))
      (hc : srv.process_data_from_node s.server node_id data = (.ok true, st2)) :
      Step srv (.task t) s { s with
        tasks := upd s.tasks t .setQuitFlag
        server := st2
        serverLock := none }
  | procFalse (s : SysState S E) (t node_id : Nat) (data : List Nat) (st2 : S)
      (h : s.tasks t = some (.procCall node_id data))
      (hc : srv.process_data_from_node s.server node_id data = (.ok false, st2)) :
      Step srv (.task t) s { s with
        tasks := upd s.tasks t (.done (.ok ()))
        server := st2
        serverLock := none }
  | procErr (s : SysState S E) (t node_id : Nat) (data : List Nat) (e : E) (st2 : S)
      (h : s.tasks t = some (.procCall node_id data))
      (hc : srv.process_data_from_node s.server node_id data = (.error e, st2)) :
      Step srv (.task t) s { s with
        tasks := upd s.tasks t (.done (.error (.ServerProcess e)))
        server := st2
        serverLock := none }
  | setQuit (s : SysState S E) (t : Nat) (h : s.tasks t = some .setQuitFlag) :
      Step srv (.task t) s { s with tasks := upd s.tasks t .sendFinishedJob, quit := true }
  | sendJobOk (s : SysState S E) (t : Nat) (h : s.tasks t = some .sendFinishedJob) :
      Step srv (.task t) s { s with
        tasks := upd s.tasks t (.done (.ok ()))
        sent := s.sent ++ [(t, .ServerFinished)] }
  | sendJobErr (s : SysState S E) (t : Nat) (h : s.tasks t = some .sendFinishedJob) :
      Step srv (.task t) s { s with tasks := upd s.tasks t (.done (.error .IOError)) }

/-- A step by either the accept loop or some task. -/
def StepAny (srv : NC_Server S E) (s s2 : SysState S E) : Prop :=
  ∃ lbl, Step srv lbl s s2

/-- Reachability in the interleaving semantics. -/
def Reachable (srv : NC_Server S E) : SysState S E → SysState S E → Prop :=
  Relation.ReflTransGen (StepAny srv)

/-- True exactly at the control points where a task holds the nc_server
mutex, i.e. while it executes a capability-contract call. -/
def holdsLock : TaskState E → Bool
  | .prepCall _ => true
  | .procCall _ _ => true
  | _ => false

/-- True exactly at the control points where a task is about to perform a
network write of a reply frame. -/
def isSendPoint : TaskState E → Bool
  | .sendData _ => true
  | .sendFinishedFlag => true
  | .sendFinishedJob => true
  | _ => false

/-- System invariant: task ids at or above nextId are unused; any task at
a lock-holding control point is registered as the mutex holder; the mutex
holder, when present, is a task at a lock-holding control point. -/
def Inv (s : SysState S E) : Prop :=
  (∀ t, s.nextId ≤ t → s.tasks t = none) ∧
  (∀ t st, s.tasks t = some st → holdsLock st = true → s.serverLock = some t) ∧
  (∀ t, s.serverLock = some t → ∃ st, s.tasks t = some st ∧ holdsLock st = true)

/-- Concrete NC_Server instance for witnesses: state counts the calls made,
prepare hands out the node id as payload, process always reports the job
finished. -/
def exSrv : NC_Server Nat Unit where
  prepare_data_for_node := fun s node_id => (Except.ok [node_id], s + 1)
  process_data_from_node := fun s _node_id _data => (Except.ok true, s + 1)

/-- Concrete NC_Server instance whose prepare fails and whose process
reports the job not yet finished. -/
def exSrv2 : NC_Server Nat Unit where
  prepare_data_for_node := fun s _node_id => (Except.error (), s)
  process_data_from_node := fun s _node_id _data => (Except.ok false, s + 1)

/-
A concrete interleaved execution of start_server with exSrv and two
connections: task 0 receives NodeNeedsData 7 and passes the quit check
while quit is still false; task 1 receives NodeHasData 8 [3], whose
process_data_from_node returns true, sets quit and replies ServerFinished;
afterwards the in-flight task 0 still obtains the lock, calls prepare and
sends ServerHasData [7].
-/

def exS0 : SysState Nat Unit := initState 0

def exS1 : SysState Nat Unit := { exS0 with acceptPhase := .accepting }

def exS2 : SysState Nat Unit := { exS1 with
  acceptPhase := .checkQuit
  tasks := upd exS1.tasks exS1.nextId (.reading (.ok (.NodeNeedsData 7)))
  nextId := exS1.nextId + 1 }

def exS3 : SysState Nat Unit := { exS2 with acceptPhase := .accepting }

def exS4 : SysState Nat Unit := { exS3 with
  acceptPhase := .checkQuit
  tasks := upd exS3.tasks exS3.nextId (.reading (.ok (.NodeHasData 8 [3])))
  nextId := exS3.nextId + 1 }

def exS5 : SysState Nat Unit := { exS4 with acceptPhase := .accepting }

def exS6 : SysState Nat Unit := { exS5 with tasks := upd exS5.tasks 0 (.quitCheck 7) }

def exS7 : SysState Nat Unit := { exS6 with tasks := upd exS6.tasks 0 (.prepLock 7) }

def exS8 : SysState Nat Unit := { exS7 with tasks := upd exS7.tasks 1 (.procLock 8 [3]) }

def exS9 : SysState Nat Unit := { exS8 with
  tasks := upd exS8.tasks 1 (.procCall 8 [3])
  serverLock := some 1 }

def exS10 : SysState Nat Unit := { exS9 with
  tasks := upd exS9.tasks 1 .setQuitFlag
  server := 1
  serverLock := none }

def exS11 : SysState Nat Unit :=
  { exS10 with tasks := upd exS10.tasks 1 .sendFinishedJob, quit := true }

def exS12 : SysState Nat Unit := { exS11 with
  tasks := upd exS11.tasks 1 (.done (.ok ()))
  sent := exS11.sent ++ [(1, .ServerFinished)] }

def exS13 : SysState Nat Unit := { exS12 with
  tasks := upd exS12.tasks 0 (.prepCall 7)
  serverLock := some 0 }

def exS14 : SysState Nat Unit := { exS13 with
  tasks := upd exS13.tasks 0 (.sendData [7])
  server := 2
  serverLock := none }

def exS15 : SysState Nat Unit := { exS14 with
  tasks := upd exS14.tasks 0 (.done (.ok ()))
  sent := exS14.sent ++ [(0, .ServerHasData [7])] }

/-- Continuation of the trace for C10: from exS12 (accept loop parked in
accept, quit already true) a third connection is still accepted and its
handler spawned. -/
def exT1 : SysState Nat Unit := { exS12 with
  acceptPhase := .checkQuit
  tasks := upd exS12.tasks exS12.nextId (.reading (.ok (.NodeNeedsData 9)))
  nextId := exS12.nextId + 1 }

/-- After exT1 the while condition sees quit = true and start_server
returns Ok. -/
def exT2 : SysState Nat Unit := { exT1 with acceptPhase := .returnedOk }

/-- Alternative continuation from exS12 for C5: the accept call fails and
start_server returns the SocketAccept error. -/
def exSErr : SysState Nat Unit := { exS12 with acceptPhase := .returnedErr }

/-- After the accept loop died with an error, the in-flight task 0 still
acquires the lock (graceful drain of handlers). -/
def exSErr2 : SysState Nat Unit := { exSErr with
  tasks := upd exSErr.tasks 0 (.prepCall 7)
  serverLock := some 0 }

/-- Minimal state for C6: one task whose receive or decode failed. -/
def exE0 : SysState Nat Unit := { (initState 0 : SysState Nat Unit) with
  tasks := upd (fun _ => none) 0 (.reading (.error .Deserialize))
  nextId := 1 }

/-- exE0 after the handler completed with the decode error, caught at the
spawn boundary. -/
def exE1 : SysState Nat Unit :=
  { exE0 with tasks := upd exE0.tasks 0 (.done (.error .Deserialize)) }

/-- Minimal state for the amended C1: the quit flag is already set and a
task is at its quit check. -/
def exQ0 : SysState Nat Unit := { (initState 5 : SysState Nat Unit) with
  quit := true
  tasks := upd (fun _ => none) 0 (.quitCheck 3)
  nextId := 1 }

/-- exQ0 after the quit check: the handler goes to the ServerFinished
reply. -/
def exQ1 : SysState Nat Unit := { exQ0 with tasks := upd exQ0.tasks 0 .sendFinishedFlag }

/-- Modelled helper lemmas about task map updates. -/
theorem upd_self (f : Nat → Option (TaskState E)) (t : Nat) (st : TaskState E) :
    upd f t st t = some st := by
  simp [upd]

theorem upd_ne (f : Nat → Option (TaskState E)) (t : Nat) (st : TaskState E) {i : Nat}
    (h : i ≠ t) : upd f t st i = f i := by
  simp [upd, h]

/-- The invariant only looks at tasks, nextId and serverLock, so it
transfers between states agreeing on those three fields. -/
theorem inv_frame {s s2 : SysState S E} (htasks : s2.tasks = s.tasks)
    (hnext : s2.nextId = s.nextId) (hlock : s2.serverLock = s.serverLock)
    (inv : Inv s) : Inv s2 := by
  obtain ⟨h1, h2, h3⟩ := inv
  refine ⟨?_, ?_, ?_⟩
  · rw [hnext, htasks]; exact h1
  · rw [htasks, hlock]; exact h2
  · rw [hlock, htasks]; exact h3

/-- Invariant preservation for a step that moves task t between two
control points outside the critical section, leaving the mutex alone. -/
theorem inv_move {s s2 : SysState S E} {t : Nat} {stOld stNew : TaskState E}
    (htasks : s2.tasks = upd s.tasks t stNew)
    (hnext : s2.nextId = s.nextId) (hlock : s2.serverLock = s.serverLock)
    (h : s.tasks t = some stOld) (hOld : holdsLock stOld = false)
    (hNew : holdsLock stNew = false) (inv : Inv s) : Inv s2 := by
  obtain ⟨h1, h2, h3⟩ := inv
  have htlt : ¬ s.nextId ≤ t := fun hle => by simp [h1 t hle] at h
  refine ⟨?_, ?_, ?_⟩
  · intro u hu
    rw [hnext] at hu
    rw [htasks]
    rcases eq_or_ne u t with rfl | hne
    · exact absurd hu htlt
    · rw [upd_ne _ _ _ hne]; exact h1 u hu
  · intro u st hu hh
    rw [htasks] at hu
    rw [hlock]
    rcases eq_or_ne u t with rfl | hne
    · rw [upd_self] at hu
      injection hu with hu
      subst hu
      simp [hNew] at hh
    · rw [upd_ne _ _ _ hne] at hu; exact h2 u st hu hh
  · intro u hu
    rw [hlock] at hu
    obtain ⟨st, hst, hh⟩ := h3 u hu
    rcases eq_or_ne u t with rfl | hne
    · rw [h] at hst
      injection hst with hst
      subst hst
      simp [hOld] at hh
    · exact ⟨st, by rw [htasks, upd_ne _ _ _ hne]; exact hst, hh⟩

/-- Invariant preservation for a mutex acquisition step: task t enters a
capability call; the mutex must be free beforehand. -/
theorem inv_acquire {s s2 : SysState S E} {t : Nat} {stOld stNew : TaskState E}
    (htasks : s2.tasks = upd s.tasks t stNew)
    (hnext : s2.nextId = s.nextId) (hlock : s2.serverLock = some t)
    (h : s.tasks t = some stOld) (_hOld : holdsLock stOld = false)
    (hNew : holdsLock stNew = true) (hfree : s.serverLock = none)
    (inv : Inv s) : Inv s2 := by
  obtain ⟨h1, h2, h3⟩ := inv
  have htlt : ¬ s.nextId ≤ t := fun hle => by simp [h1 t hle] at h
  refine ⟨?_, ?_, ?_⟩
  · intro u hu
    rw [hnext] at hu
    rw [htasks]
    rcases eq_or_ne u t with rfl | hne
    · exact absurd hu htlt
    · rw [upd_ne _ _ _ hne]; exact h1 u hu
  · intro u st hu hh
    rw [htasks] at hu
    rw [hlock]
    rcases eq_or_ne u t with rfl | hne
    · rfl
    · rw [upd_ne _ _ _ hne] at hu
      have hlu := h2 u st hu hh
      rw [hfree] at hlu
      cases hlu
  · intro u hu
    rw [hlock] at hu
    injection hu with hu
    subst hu
    exact ⟨stNew, by rw [htasks, upd_self], hNew⟩

/-- Invariant preservation for a mutex release step: task t leaves its
capability call and the mutex becomes free, in the same step, before any
network write. -/
theorem inv_release {s s2 : SysState S E} {t : Nat} {stOld stNew : TaskState E}
    (htasks : s2.tasks = upd s.tasks t stNew)
    (hnext : s2.nextId = s.nextId) (hlock : s2.serverLock = none)
    (h : s.tasks t = some stOld) (hOld : holdsLock stOld = true)
    (hNew : holdsLock stNew = false) (inv : Inv s) : Inv s2 := by
  obtain ⟨h1, h2, h3⟩ := inv
  have hlockt := h2 t stOld h hOld
  have htlt : ¬ s.nextId ≤ t := fun hle => by simp [h1 t hle] at h
  refine ⟨?_, ?_, ?_⟩
  · intro u hu
    rw [hnext] at hu
    rw [htasks]
    rcases eq_or_ne u t with rfl | hne
    · exact absurd hu htlt
    · rw [upd_ne _ _ _ hne]; exact h1 u hu
  · intro u st hu hh
    rw [htasks] at hu
    rcases eq_or_ne u t with rfl | hne
    · rw [upd_self] at hu
      injection hu with hu
      subst hu
      simp [hNew] at hh
    · rw [upd_ne _ _ _ hne] at hu
      have hlu := h2 u st hu hh
      rw [hlockt] at hlu
      injection hlu with hlu
      exact absurd hlu.symm hne
  · intro u hu
    rw [hlock] at hu
    cases hu

/-- Invariant preservation for the spawn performed by a successful accept:
the fresh task starts at `reading`, outside the critical section. -/
theorem inv_spawn {s s2 : SysState S E} {inc : Except (NC_Error E) NC_NodeMessage}
    (htasks : s2.tasks = upd s.tasks s.nextId (.reading inc))
    (hnext : s2.nextId = s.nextId + 1) (hlock : s2.serverLock = s.serverLock)
    (inv : Inv s) : Inv s2 := by
  obtain ⟨h1, h2, h3⟩ := inv
  refine ⟨?_, ?_, ?_⟩
  · intro u hu
    rw [hnext] at hu
    rw [htasks]
    have hne : u ≠ s.nextId := by omega
    rw [upd_ne _ _ _ hne]
    exact h1 u (by omega)
  · intro u st hu hh
    rw [htasks] at hu
    rw [hlock]
    rcases eq_or_ne u s.nextId with rfl | hne
    · rw [upd_self] at hu
      injection hu with hu
      subst hu
      simp [holdsLock] at hh
    · rw [upd_ne _ _ _ hne] at hu; exact h2 u st hu hh
  · intro u hu
    rw [hlock] at hu
    obtain ⟨st, hst, hh⟩ := h3 u hu
    have hne : u ≠ s.nextId := fun heq => by
      rw [heq, h1 s.nextId le_rfl] at hst
      cases hst
    exact ⟨st, by rw [htasks, upd_ne _ _ _ hne]; exact hst, hh⟩

/-- Every step of the interleaving semantics preserves the lock
invariant. -/
theorem inv_step {lbl : StepLabel} {s s2 : SysState S E} {srv : NC_Server S E}
    (hstep : Step srv lbl s s2) (inv : Inv s) : Inv s2 := by
  cases hstep with
  | loopCheckTrue s h hq => exact inv_frame rfl rfl rfl inv
  | loopCheckFalse s h hq => exact inv_frame rfl rfl rfl inv
  | acceptOk s inc h => exact inv_spawn rfl rfl rfl inv
  | acceptErr s h => exact inv_frame rfl rfl rfl inv
  | readErr s t e h => exact inv_move rfl rfl rfl h rfl rfl inv
  | dispatchNeeds s t node_id h => exact inv_move rfl rfl rfl h rfl rfl inv
  | dispatchHas s t node_id data h => exact inv_move rfl rfl rfl h rfl rfl inv
  | quitCheckTrue s t node_id h hq => exact inv_move rfl rfl rfl h rfl rfl inv
  | quitCheckFalse s t node_id h hq => exact inv_move rfl rfl rfl h rfl rfl inv
  | prepAcquire s t node_id h hfree => exact inv_acquire rfl rfl rfl h rfl rfl hfree inv
  | prepOk s t node_id data st2 h hc => exact inv_release rfl rfl rfl h rfl rfl inv
  | prepErr s t node_id e st2 h hc => exact inv_release rfl rfl rfl h rfl rfl inv
  | sendDataOk s t data h => exact inv_move rfl rfl rfl h rfl rfl inv
  | sendDataErr s t data h => exact inv_move rfl rfl rfl h rfl rfl inv
  | sendFlagOk s t h => exact inv_move rfl rfl rfl h rfl rfl inv
  | sendFlagErr s t h => exact inv_move rfl rfl rfl h rfl rfl inv
  | procAcquire s t node_id data h hfree => exact inv_acquire rfl rfl rfl h rfl rfl hfree inv
  | procTrue s t node_id data st2 h hc => exact inv_release rfl rfl rfl h rfl rfl inv
  | procFalse s t node_id data st2 h hc => exact inv_release rfl rfl rfl h rfl rfl inv
  | procErr s t node_id data e st2 h hc => exact inv_release rfl rfl rfl h rfl rfl inv
  | setQuit s t h => exact inv_move rfl rfl rfl h rfl rfl inv
  | sendJobOk s t h => exact inv_move rfl rfl rfl h rfl rfl inv
  | sendJobErr s t h => exact inv_move rfl rfl rfl h rfl rfl inv

/-- The initial state satisfies the lock invariant. -/
theorem inv_init (s0 : S) : Inv (initState s0 : SysState S E) := by
  refine ⟨?_, ?_, ?_⟩ <;> intro t
  · intro _; rfl
  · intro st hu _; cases hu
  · intro hu; cases hu

/-- Every state reachable from the initial state satisfies the lock
invariant. -/
theorem inv_reachable {srv : NC_Server S E} {s0 : S} {s : SysState S E}
    (h : Reachable srv (initState s0) s) : Inv s := by
  induction h with
  | refl => exact inv_init s0
  | tail hab hbc ih =>
    obtain ⟨lbl, hstep⟩ := hbc
    exact inv_step hstep ih

/-- The quit flag is monotone: once set by process_data_from_node
reporting completion, no step ever clears it. -/
theorem step_quit_mono {lbl : StepLabel} {s s2 : SysState S E} {srv : NC_Server S E}
    (hstep : Step srv lbl s s2) (hq : s.quit = true) : s2.quit = true := by
  cases hstep <;> simp_all

/-- A handler-task step never changes the accept-loop control point. -/
theorem taskStep_phase {t : Nat} {s s2 : SysState S E} {srv : NC_Server S E}
    (hstep : Step srv (.task t) s s2) : s2.acceptPhase = s.acceptPhase := by
  cases hstep <;> rfl

/-- A handler-task step never spawns a task. -/
theorem taskStep_nextId {t : Nat} {s s2 : SysState S E} {srv : NC_Server S E}
    (hstep : Step srv (.task t) s s2) : s2.nextId = s.nextId := by
  cases hstep <;> rfl

/-- A handler-task step only touches its own entry in the task map. -/
theorem taskStep_framesOther {t : Nat} {s s2 : SysState S E} {srv : NC_Server S E}
    (hstep : Step srv (.task t) s s2) : ∀ u, u ≠ t → s2.tasks u = s.tasks u := by
  cases hstep <;> intro u hu <;> simp [upd, hu]

/-- Task ids only ever grow. -/
theorem step_nextId_mono {lbl : StepLabel} {s s2 : SysState S E} {srv : NC_Server S E}
    (hstep : Step srv lbl s s2) : s.nextId ≤ s2.nextId := by
  cases hstep <;> simp

theorem rtg_nextId_mono {s s2 : SysState S E} {srv : NC_Server S E}
    (h : Reachable srv s s2) : s.nextId ≤ s2.nextId := by
  induction h with
  | refl => exact le_rfl
  | tail hab hbc ih =>
    obtain ⟨lbl, hstep⟩ := hbc
    exact le_trans ih (step_nextId_mono hstep)

/-- Once start_server has returned with the SocketAccept error, the accept
loop is gone for good: no step revives it and no task is ever spawned
again. -/
theorem step_errPhase {lbl : StepLabel} {s s2 : SysState S E} {srv : NC_Server S E}
    (hstep : Step srv lbl s s2) (h : s.acceptPhase = .returnedErr) :
    s2.acceptPhase = .returnedErr ∧ s2.nextId = s.nextId := by
  cases hstep <;> simp_all

theorem rtg_errPhase {s s2 : SysState S E} {srv : NC_Server S E}
    (h : Reachable srv s s2) (he : s.acceptPhase = .returnedErr) :
    s2.acceptPhase = .returnedErr ∧ s2.nextId = s.nextId := by
  induction h with
  | refl => exact ⟨he, rfl⟩
  | tail hab hbc ih =>
    obtain ⟨lbl, hstep⟩ := hbc
    obtain ⟨hp, hn⟩ := ih
    obtain ⟨hp2, hn2⟩ := step_errPhase hstep hp
    exact ⟨hp2, by rw [hn2, hn]⟩

/-- Steps of the concrete interleaved execution. -/
theorem stepEx01 : Step exSrv .acceptLoop exS0 exS1 := Step.loopCheckFalse exS0 rfl rfl

theorem stepEx12 : Step exSrv .acceptLoop exS1 exS2 :=
  Step.acceptOk exS1 (.ok (.NodeNeedsData 7)) rfl

theorem stepEx23 : Step exSrv .acceptLoop exS2 exS3 := Step.loopCheckFalse exS2 rfl rfl

theorem stepEx34 : Step exSrv .acceptLoop exS3 exS4 :=
  Step.acceptOk exS3 (.ok (.NodeHasData 8 [3])) rfl

theorem stepEx45 : Step exSrv .acceptLoop exS4 exS5 := Step.loopCheckFalse exS4 rfl rfl

theorem stepEx56 : Step exSrv (.task 0) exS5 exS6 := Step.dispatchNeeds exS5 0 7 rfl

theorem stepEx67 : Step exSrv (.task 0) exS6 exS7 := Step.quitCheckFalse exS6 0 7 rfl rfl

theorem stepEx78 : Step exSrv (.task 1) exS7 exS8 := Step.dispatchHas exS7 1 8 [3] rfl

theorem stepEx89 : Step exSrv (.task 1) exS8 exS9 := Step.procAcquire exS8 1 8 [3] rfl rfl

theorem stepEx910 : Step exSrv (.task 1) exS9 exS10 := Step.procTrue exS9 1 8 [3] 1 rfl rfl

theorem stepEx1011 : Step exSrv (.task 1) exS10 exS11 := Step.setQuit exS10 1 rfl

theorem stepEx1112 : Step exSrv (.task 1) exS11 exS12 := Step.sendJobOk exS11 1 rfl

theorem stepEx1213 : Step exSrv (.task 0) exS12 exS13 := Step.prepAcquire exS12 0 7 rfl rfl

theorem stepEx1314 : Step exSrv (.task 0) exS13 exS14 := Step.prepOk exS13 0 7 [7] 2 rfl rfl

theorem stepEx1415 : Step exSrv (.task 0) exS14 exS15 := Step.sendDataOk exS14 0 [7] rfl

theorem exReach12 : Reachable exSrv (initState 0) exS12 :=
  ((((((((((Relation.ReflTransGen.refl.tail
    ⟨_, stepEx01⟩).tail ⟨_, stepEx12⟩).tail ⟨_, stepEx23⟩).tail ⟨_, stepEx34⟩).tail
    ⟨_, stepEx45⟩).tail ⟨_, stepEx56⟩).tail ⟨_, stepEx67⟩).tail ⟨_, stepEx78⟩).tail
    ⟨_, stepEx89⟩).tail ⟨_, stepEx910⟩).tail ⟨_, stepEx1011⟩ |>.tail ⟨_, stepEx1112⟩

theorem exReach13 : Reachable exSrv (initState 0) exS13 :=
  exReach12.tail ⟨_, stepEx1213⟩

theorem exReach14 : Reachable exSrv (initState 0) exS14 :=
  exReach13.tail ⟨_, stepEx1314⟩

/-- C3: on NodeNeedsData(node_id) the handler checks the shutdown flag;
if set it replies ServerFinished making no capability call and leaving the
server state untouched; otherwise it calls prepare_data_for_node(node_id)
and on success replies ServerHasData(payload); on an application error
from prepare it returns the ServerPrepare error, terminating the
connection, and sends no reply. -/
theorem nc_C3 (S E : Type) (srv : NC_Server S E) (node_id : Nat) (st : S) :
    (handle_node srv (.ok (.NodeNeedsData node_id)) true true st =
      ⟨.ok (), st, true, [.ServerFinished], []⟩)
    ∧ (∀ data st2, srv.prepare_data_for_node st node_id = (.ok data, st2) →
        handle_node srv (.ok (.NodeNeedsData node_id)) true false st =
          ⟨.ok (), st2, false, [.ServerHasData data], [.prepare node_id]⟩)
    ∧ (∀ e st2, srv.prepare_data_for_node st node_id = (.error e, st2) → ∀ sendOk,
        handle_node srv (.ok (.NodeNeedsData node_id)) sendOk false st =
          ⟨.error (.ServerPrepare e), st2, false, [], [.prepare node_id]⟩) := by
  refine ⟨rfl, ?_, ?_⟩
  · intro data st2 h
    simp [handle_node, h]
  · intro e st2 h sendOk
    simp [handle_node, h]

/-- C3 witness at concrete inputs: exSrv for the quit-set and successful
prepare paths, exSrv2 for the failing prepare path. -/
theorem nc_C3_witness :
    (handle_node exSrv (.ok (.NodeNeedsData 7)) true true 0 =
      ⟨.ok (), 0, true, [.ServerFinished], []⟩)
    ∧ (handle_node exSrv (.ok (.NodeNeedsData 7)) true false 0 =
      ⟨.ok (), 1, false, [.ServerHasData [7]], [.prepare 7]⟩)
    ∧ (handle_node exSrv2 (.ok (.NodeNeedsData 7)) true false 0 =
      ⟨.error (.ServerPrepare ()), 0, false, [], [.prepare 7]⟩) :=
  ⟨(nc_C3 Nat Unit exSrv 7 0).1,
   (nc_C3 Nat Unit exSrv 7 0).2.1 [7] 1 rfl,
   (nc_C3 Nat Unit exSrv2 7 0).2.2 () 0 rfl true⟩

/-- C4: on NodeHasData(node_id, data) the handler calls
process_data_from_node(node_id, data); if it returns true the handler sets
the shutdown flag to true and then replies ServerFinished.  The second
conjunct states the ordering in the interleaved semantics: the step that
sets the flag happens strictly before the task reaches the ServerFinished
write point. -/
theorem nc_C4 (S E : Type) (srv : NC_Server S E) (node_id : Nat) (data : List Nat)
    (st : S) (q : Bool) :
    (∀ st2, srv.process_data_from_node st node_id data = (.ok true, st2) →
      handle_node srv (.ok (.NodeHasData node_id data)) true q st =
        ⟨.ok (), st2, true, [.ServerFinished], [.process node_id data]⟩)
    ∧ (∀ (s s2 : SysState S E) t, s.tasks t = some .setQuitFlag →
        Step srv (.task t) s s2 →
        s2.quit = true ∧ s2.tasks t = some .sendFinishedJob) := by
  refine ⟨?_, ?_⟩
  · intro st2 h
    simp [handle_node, h]
  · intro s s2 t ht hstep
    cases hstep <;> simp_all [upd]

/-- C4 witness: exSrv at node 8 with payload [3], and the concrete setQuit
step of the example trace. -/
theorem nc_C4_witness :
    (handle_node exSrv (.ok (.NodeHasData 8 [3])) true false 0 =
      ⟨.ok (), 1, true, [.ServerFinished], [.process 8 [3]]⟩)
    ∧ (exS11.quit = true ∧ exS11.tasks 1 = some .sendFinishedJob) :=
  ⟨(nc_C4 Nat Unit exSrv 8 [3] 0 false).1 1 rfl,
   (nc_C4 Nat Unit exSrv 8 [3] 0 false).2 exS10 exS11 1 rfl stepEx1011⟩

/-- C9: when process_data_from_node returns Ok(false) the handler writes
no reply frame at all and returns success, regardless of whether a write
would have succeeded; the connection is closed silently. -/
theorem nc_C9 (S E : Type) (srv : NC_Server S E) (node_id : Nat) (data : List Nat)
    (st : S) (q sendOk : Bool) (st2 : S)
    (h : srv.process_data_from_node st node_id data = (.ok false, st2)) :
    handle_node srv (.ok (.NodeHasData node_id data)) sendOk q st =
      ⟨.ok (), st2, q, [], [.process node_id data]⟩ := by
  simp [handle_node, h]

/-- C9 witness: exSrv2 processes node 8 with payload [3] and reports the
job unfinished; no reply is recorded. -/
theorem nc_C9_witness :
    handle_node exSrv2 (.ok (.NodeHasData 8 [3])) true true 0 =
      ⟨.ok (), 1, true, [], [.process 8 [3]]⟩ :=
  nc_C9 Nat Unit exSrv2 8 [3] 0 true true 1 rfl

/-- C8 counterexample: start_server ignores the configured address.  With
the listen address configured to "127.0.0.1" the bound address is not
("127.0.0.1", port), and two configurations differing only in the address
bind the same socket address, refuting that the configured address
determines the bound socket address. -/
theorem nc_C8_counterexample :
    start_server_bind_addr { address := "127.0.0.1", port := 2020 } ≠ ("127.0.0.1", 2020)
    ∧ start_server_bind_addr { address := "127.0.0.1", port := 2020 } =
        start_server_bind_addr { address := "10.0.0.1", port := 2020 } :=
  ⟨by decide, rfl⟩

/-- C8 amended: start_server binds its listening socket to the wildcard
address "0.0.0.0" and the port supplied in the configuration; only the
configured port determines the bound socket address, the configured
address is ignored. -/
theorem nc_C8_amended (c1 c2 : NC_Configuration) (h : c1.port = c2.port) :
    start_server_bind_addr c1 = start_server_bind_addr c2
    ∧ (start_server_bind_addr c1).1 = "0.0.0.0"
    ∧ (start_server_bind_addr c1).2 = c1.port := by
  simp [start_server_bind_addr, h]

/-- C8 amended witness at two concrete configurations sharing a port. -/
theorem nc_C8_amended_witness :
    start_server_bind_addr { address := "127.0.0.1", port := 3000 } =
      start_server_bind_addr { address := "192.168.0.1", port := 3000 }
    ∧ (start_server_bind_addr { address := "127.0.0.1", port := 3000 }).1 = "0.0.0.0"
    ∧ (start_server_bind_addr { address := "127.0.0.1", port := 3000 }).2 = 3000 :=
  nc_C8_amended { address := "127.0.0.1", port := 3000 }
    { address := "192.168.0.1", port := 3000 } rfl

/-- No task state is both a capability call point and a network write
point. -/
theorem holdsLock_not_sendPoint {st : TaskState E} (h : holdsLock st = true) :
    isSendPoint st = false := by
  cases st <;> simp_all [holdsLock, isSendPoint]

/-- C2: prepare_data_for_node and process_data_from_node on the shared
server state never execute concurrently: in every reachable state of the
interleaved semantics, at most one handler task is inside a
capability-contract call (the nc_server mutex serializes them globally,
not per worker). -/
theorem nc_C2 (S E : Type) (srv : NC_Server S E) (s0 : S) (s : SysState S E)
    (hreach : Reachable srv (initState s0) s)
    (t1 t2 : Nat) (st1 st2 : TaskState E)
    (h1 : s.tasks t1 = some st1) (hc1 : holdsLock st1 = true)
    (h2 : s.tasks t2 = some st2) (hc2 : holdsLock st2 = true) : t1 = t2 := by
  obtain ⟨_, hin, _⟩ := inv_reachable hreach
  have e1 := hin t1 st1 h1 hc1
  have e2 := hin t2 st2 h2 hc2
  rw [e1] at e2
  injection e2

/-- C2 witness: in the reachable state exS13 task 0 is inside
prepare_data_for_node; any task inside a capability call there is task
0. -/
theorem nc_C2_witness : (0 : Nat) = 0 ∧ exS13.tasks 0 = some (.prepCall 7) :=
  ⟨nc_C2 Nat Unit exSrv 0 exS13 exReach13 0 0 (.prepCall 7) (.prepCall 7) rfl rfl rfl rfl,
   rfl⟩

/-- C7: in every reachable state the nc_server mutex is held only by a
task currently inside a capability-contract call, and a task at a network
write point never holds it: the lock is released before any network write
of the reply frame. -/
theorem nc_C7 (S E : Type) (srv : NC_Server S E) (s0 : S) (s : SysState S E)
    (hreach : Reachable srv (initState s0) s) :
    (∀ t, s.serverLock = some t → ∃ st, s.tasks t = some st ∧ holdsLock st = true)
    ∧ (∀ t st, s.tasks t = some st → isSendPoint st = true → s.serverLock ≠ some t) := by
  obtain ⟨_, hin, hown⟩ := inv_reachable hreach
  refine ⟨hown, ?_⟩
  intro t st hu hsend hlock
  obtain ⟨st2, hu2, hh2⟩ := hown t hlock
  rw [hu] at hu2
  injection hu2 with hu2
  subst hu2
  rw [holdsLock_not_sendPoint hh2] at hsend
  cases hsend

/-- C7 witness: in the reachable state exS14 task 0 is about to write the
ServerHasData reply and the mutex is not held by it. -/
theorem nc_C7_witness : exS14.tasks 0 = some (.sendData [7]) ∧ exS14.serverLock ≠ some 0 :=
  ⟨rfl, (nc_C7 Nat Unit exSrv 0 exS14 exReach14).2 0 (.sendData [7]) rfl rfl⟩

/-- C6: a handler-task step never changes the accept-loop control point; a
step that completes a handler with an error (I/O, decode or application)
leaves the quit flag and every other connection untouched; and a
completed handler takes no further step, its error being absorbed at the
spawn boundary.  Hence handler errors never propagate to the accept loop
or to other connections. -/
theorem nc_C6 (S E : Type) (srv : NC_Server S E) :
    (∀ (t : Nat) (s s2 : SysState S E), Step srv (.task t) s s2 →
      s2.acceptPhase = s.acceptPhase)
    ∧ (∀ (t : Nat) (s s2 : SysState S E) (e : NC_Error E), Step srv (.task t) s s2 →
        s2.tasks t = some (.done (.error e)) →
        s2.quit = s.quit ∧ ∀ u, u ≠ t → s2.tasks u = s.tasks u)
    ∧ (∀ (t : Nat) (r : Except (NC_Error E) Unit) (s s2 : SysState S E),
        s.tasks t = some (.done r) → ¬ Step srv (.task t) s s2) := by
  refine ⟨?_, ?_, ?_⟩
  · intro t s s2 hstep
    exact taskStep_phase hstep
  · intro t s s2 e hstep hdone
    refine ⟨?_, taskStep_framesOther hstep⟩
    cases hstep <;> simp_all [upd]
  · intro t r s s2 hdone hstep
    cases hstep <;> simp_all

/-- C6 witness: the concrete decode-error completion exE0 to exE1 keeps
the accept phase, the quit flag and the (absent) task 3 unchanged, and
from the completed state no further step of task 0 exists. -/
theorem nc_C6_witness :
    exE1.acceptPhase = exE0.acceptPhase
    ∧ (exE1.quit = exE0.quit ∧ exE1.tasks 3 = exE0.tasks 3)
    ∧ ¬ Step exSrv (.task 0) exE1 exE0 :=
  ⟨(nc_C6 Nat Unit exSrv).1 0 exE0 exE1 (Step.readErr exE0 0 .Deserialize rfl),
   (fun h => ⟨h.1, h.2 3 (by decide)⟩)
     ((nc_C6 Nat Unit exSrv).2.1 0 exE0 exE1 .Deserialize
       (Step.readErr exE0 0 .Deserialize rfl) rfl),
   (nc_C6 Nat Unit exSrv).2.2 0 (.error .Deserialize) exE1 exE0 rfl⟩

/-- C1 counterexample: in the reachable state exS14, process_data_from_node
has already returned true and the shutdown flag is set (a ServerFinished
was already sent), yet the in-flight NodeNeedsData handler of task 0 still
issues a ServerHasData reply in the next step, refuting that no further
ServerHasData is ever issued once process_data_from_node returns true. -/
theorem nc_C1_counterexample :
    Step exSrv (.task 0) exS14 exS15
    ∧ exS14.quit = true
    ∧ exS15.sent = exS14.sent ++ [(0, NC_ServerMessage.ServerHasData [7])]
    ∧ exS14.sent = [(1, NC_ServerMessage.ServerFinished)]
    ∧ Reachable exSrv (initState 0) exS14 :=
  ⟨stepEx1415, rfl, rfl, rfl, exReach14⟩

/-- C1 amended: once the shutdown flag is set it is never cleared; every
NodeNeedsData handler whose shutdown check happens while the flag is set
proceeds only to the ServerFinished reply (never to prepare_data_for_node
or a ServerHasData write); and a ServerHasData reply is only ever written
by a handler already at its write point, which it reached by passing the
shutdown check while the flag was unset — an in-flight handler may
therefore still issue one ServerHasData after the flag is set, and the
accept loop stops only after re-checking the flag (see C10). -/
theorem nc_C1_amended (S E : Type) (srv : NC_Server S E) :
    (∀ (lbl : StepLabel) (s s2 : SysState S E), Step srv lbl s s2 →
      s.quit = true → s2.quit = true)
    ∧ (∀ (t node_id : Nat) (s s2 : SysState S E),
        s.tasks t = some (.quitCheck node_id) → s.quit = true →
        Step srv (.task t) s s2 → s2.tasks t = some .sendFinishedFlag)
    ∧ (∀ (lbl : StepLabel) (t : Nat) (data : List Nat) (s s2 : SysState S E),
        Step srv lbl s s2 →
        s2.sent = s.sent ++ [(t, NC_ServerMessage.ServerHasData data)] →
        s.tasks t = some (.sendData data)) := by
  refine ⟨?_, ?_, ?_⟩
  · intro lbl s s2 hstep hq
    exact step_quit_mono hstep hq
  · intro t node_id s s2 ht hq hstep
    cases hstep <;> simp_all [upd]
  · intro lbl t data s s2 hstep hsent
    cases hstep <;> simp_all

/-- C1 amended witness: the flag stays set across the concrete send step;
the handler of exQ0 that checks the flag while set moves to the
ServerFinished reply; the concrete ServerHasData append of the example
trace originates from the sendData point. -/
theorem nc_C1_amended_witness :
    exS12.quit = true
    ∧ exQ1.tasks 0 = some .sendFinishedFlag
    ∧ exS14.tasks 0 = some (.sendData [7]) :=
  ⟨(nc_C1_amended Nat Unit exSrv).1 (.task 1) exS11 exS12 stepEx1112 rfl,
   (nc_C1_amended Nat Unit exSrv).2.1 0 3 exQ0 exQ1 rfl rfl
     (Step.quitCheckTrue exQ0 0 3 rfl rfl),
   (nc_C1_amended Nat Unit exSrv).2.2 (.task 0) 0 [7] exS14 exS15 stepEx1415 rfl⟩

/-- C5 counterexample: from the reachable state exS12 a single failing
accept call makes start_server take the step to returnedErr, i.e. the `?`
on socket.accept() returns the SocketAccept error and the accept loop
stops, refuting that an accept failure does not stop the accept loop. -/
theorem nc_C5_counterexample :
    Step exSrv .acceptLoop exS12 exSErr
    ∧ exSErr.acceptPhase = .returnedErr
    ∧ exSErr.nextId = exS12.nextId
    ∧ Reachable exSrv (initState 0) exS12 :=
  ⟨Step.acceptErr exS12 rfl, rfl, rfl, exReach12⟩

/-- C5 amended: a failure of a single accept call is fatal to the accept
loop: start_server returns the SocketAccept error, and from then on the
loop never runs again and no further connection is ever accepted (no task
is ever spawned), while in-flight handlers may still drain. -/
theorem nc_C5_amended (S E : Type) (srv : NC_Server S E) (s s2 : SysState S E)
    (hr : Reachable srv s s2) (he : s.acceptPhase = .returnedErr) :
    s2.acceptPhase = .returnedErr ∧ s2.nextId = s.nextId :=
  rtg_errPhase hr he

/-- C5 amended witness: after the failed accept the in-flight task 0 still
steps, but the loop stays dead and no task is spawned. -/
theorem nc_C5_amended_witness :
    exSErr2.acceptPhase = .returnedErr ∧ exSErr2.nextId = exSErr.nextId :=
  nc_C5_amended Nat Unit exSrv exSErr exSErr2
    (Relation.ReflTransGen.single ⟨.task 0, Step.prepAcquire exSErr 0 7 rfl rfl⟩) rfl

/-- C10: if the accept loop is blocked inside accept and eventually
start_server returns Ok, then at least one further connection was accepted
and its handler spawned in between (nextId strictly grew): start_server
never returns Ok straight out of the blocked accept, in particular not
immediately upon the shutdown flag being set. -/
theorem nc_C10 (S E : Type) (srv : NC_Server S E) (s s2 : SysState S E)
    (hr : Reachable srv s s2) (hacc : s.acceptPhase = .accepting)
    (hok : s2.acceptPhase = .returnedOk) : s.nextId < s2.nextId := by
  revert hacc
  induction hr using Relation.ReflTransGen.head_induction_on with
  | refl =>
    intro hacc
    rw [hacc] at hok
    cases hok
  | head hstep hrest ih =>
    intro hacc
    obtain ⟨lbl, hs⟩ := hstep
    cases lbl with
    | task t =>
      have hph := taskStep_phase hs
      have hni := taskStep_nextId hs
      rw [hacc] at hph
      rw [← hni]
      exact ih hph
    | acceptLoop =>
      cases hs with
      | loopCheckTrue s h hq => rw [hacc] at h; cases h
      | loopCheckFalse s h hq => rw [hacc] at h; cases h
      | acceptOk s inc h =>
        have hmono := rtg_nextId_mono hrest
        simp only at hmono
        omega
      | acceptErr s h =>
        have herr := (rtg_errPhase hrest rfl).1
        rw [hok] at herr
        cases herr

/-- C10 witness: from the reachable state exS12, blocked in accept with
the flag already set, the run accepts one more connection (task 2 spawned)
and only then returns Ok; nextId grows from 2 to 3. -/
theorem nc_C10_witness : exS12.nextId < exT2.nextId :=
  nc_C10 Nat Unit exSrv exS12 exT2
    ((Relation.ReflTransGen.single
        ⟨.acceptLoop, Step.acceptOk exS12 (.ok (.NodeNeedsData 9)) rfl⟩).tail
      ⟨.acceptLoop, Step.loopCheckTrue exT1 rfl rfl⟩) rfl rfl

end NodeCrunch

